import Mathlib

/-!
Verification of the dependency-descriptor registry in `python/build/libs.py`.

The file `libs.py` declares eight third-party-library descriptors by calling
four constructor families imported from the build engine:
`CmakeProject`, `ZlibProject`, `AutotoolsProject` and `FfmpegProject`.
Each call supplies a download URL (or an ordered tuple of mirror URLs for
zlib), a hex integrity digest, the artifact path the build installs under the
install prefix, an ordered list of opaque configure arguments (absent for
zlib), and optionally a patch reference (`patches=`), an extracted-root
override (`base=`) and a bootstrap request (`autoreconf=True`).

We embed each descriptor as a value of `ProjectDesc`, with one Lean function
per Python constructor so each registry entry below is a line-for-line
transcription of the corresponding call in `libs.py`.  Behaviour of the build
engine itself (fetching, extraction, adapter build steps) is not in the
visible sources; where a claim needs it, a definition marked
"Modelled from the spec" captures the specified behaviour.
-/

inductive AdapterKind where
  | cmake
  | zlibBuild
  | autotools
  | ffmpegBuild
deriving DecidableEq, Repr

structure ProjectDesc where
  kind : AdapterKind
  urls : List String
  digest : String
  installed : String
  configureArgs : List String
  patches : Option String
  base : Option String
  autoreconf : Bool
deriving DecidableEq, Repr

/-- Constructor `CmakeProject(url, digest, installed, configure_args)`: CMake-style
descriptor constructor; takes a single URL and an argument list, never a
patch set, root override or bootstrap flag. -/
def CmakeProject (url digest installed : String) (configure_args : List String) :
    ProjectDesc :=
  { kind := AdapterKind.cmake
    urls := [url]
    digest := digest
    installed := installed
    configureArgs := configure_args
    patches := none
    base := none
    autoreconf := false }

/-- Constructor `ZlibProject(urls, digest, installed)`: the bespoke constructor for the
compression library; takes an ordered tuple of mirror URLs and no
configure-argument list at all. -/
def ZlibProject (urls : List String) (digest installed : String) : ProjectDesc :=
  { kind := AdapterKind.zlibBuild
    urls := urls
    digest := digest
    installed := installed
    configureArgs := []
    patches := none
    base := none
    autoreconf := false }

/-- Constructor `AutotoolsProject(url, digest, installed, configure_args, patches=…,
base=…, autoreconf=…)`: Autotools-style descriptor constructor.  The three
keyword arguments are optional in Python and default to absent / `False`;
call sites below pass them explicitly, `none` / `false` standing for an
omitted keyword. -/
def AutotoolsProject (url digest installed : String) (configure_args : List String)
    (patches : Option String) (base : Option String) (autoreconf : Bool) :
    ProjectDesc :=
  { kind := AdapterKind.autotools
    urls := [url]
    digest := digest
    installed := installed
    configureArgs := configure_args
    patches := patches
    base := base
    autoreconf := autoreconf }

/-- Constructor `FfmpegProject(url, digest, installed, configure_args)`: the
feature-flag-heavy Autotools-derivative constructor used for the multimedia
codec suite. -/
def FfmpegProject (url digest installed : String) (configure_args : List String) :
    ProjectDesc :=
  { kind := AdapterKind.ffmpegBuild
    urls := [url]
    digest := digest
    installed := installed
    configureArgs := configure_args
    patches := none
    base := none
    autoreconf := false }

def libsamplerate : ProjectDesc := CmakeProject
  "https://github.com/libsndfile/libsamplerate/releases/download/0.2.2/libsamplerate-0.2.2.tar.xz"
  "97c010fc25156c33cddc272c1935afab"
  "lib/libsamplerate.a"
  [ "-DBUILD_SHARED_LIBS=OFF",
    "-DINSTALL_DOCS=OFF",
    "-DINSTALL_CMAKE_PACKAGE_MODULE=OFF" ]

def zlib : ProjectDesc := ZlibProject
  [ "http://zlib.net/zlib-1.3.1.tar.xz",
    "https://github.com/madler/zlib/releases/download/v1.3.1/zlib-1.3.1.tar.xz" ]
  "38ef96b8dfe510d42707d9c781877914792541133e1870841463bfa73f883e32"
  "lib/libz.a"

def libmodplug : ProjectDesc := AutotoolsProject
  "https://downloads.sourceforge.net/modplug-xmms/libmodplug/0.8.9.0/libmodplug-0.8.9.0.tar.gz"
  "457ca5a6c179656d66c01505c0d95fafaead4329b9dbaa0f997d00a3508ad9de"
  "lib/libmodplug.a"
  [ "--disable-shared", "--enable-static" ]
  (some "src/lib/modplug/patches")
  none
  false

def libopenmpt : ProjectDesc := AutotoolsProject
  "https://lib.openmpt.org/files/libopenmpt/src/libopenmpt-0.7.4+release.autotools.tar.gz"
  "1600f9335eae3904089a6286f525812961c54ce36a05dfe6eeaa576dd9328f3f"
  "lib/libopenmpt.a"
  [ "--disable-shared", "--enable-static",
    "--disable-openmpt123",
    "--disable-examples",
    "--disable-tests",
    "--disable-doxygen-doc",
    "--without-mpg123", "--without-ogg", "--without-vorbis", "--without-vorbisfile",
    "--without-portaudio", "--without-portaudiocpp", "--without-sndfile",
    "--without-flac" ]
  none
  (some "libopenmpt-0.7.3+release.autotools")
  false

def wildmidi : ProjectDesc := CmakeProject
  "https://github.com/Mindwerks/wildmidi/releases/download/wildmidi-0.4.5/wildmidi-0.4.5.tar.gz"
  "d5e7bef00a7aa47534a53d43b1265f8d3d27f6a28e7f563c1cdf02ff4fa35b99"
  "lib/libWildMidi.a"
  [ "-DBUILD_SHARED_LIBS=OFF",
    "-DWANT_PLAYER=OFF",
    "-DWANT_STATIC=ON" ]

def gme : ProjectDesc := CmakeProject
  "https://bitbucket.org/mpyne/game-music-emu/downloads/game-music-emu-0.6.3.tar.xz"
  "aba34e53ef0ec6a34b58b84e28bf8cfbccee6585cebca25333604c35db3e051d"
  "lib/libgme.a"
  [ "-DBUILD_SHARED_LIBS=OFF",
    "-DENABLE_UBSAN=OFF",
    "-DZLIB_INCLUDE_DIR=OFF",
    "-DCMAKE_DISABLE_FIND_PACKAGE_SDL2=ON" ]
def ffmpeg : ProjectDesc := FfmpegProject
  "http://ffmpeg.org/releases/ffmpeg-6.1.1.tar.xz"
  "8684f4b00f94b85461884c3719382f1261f0d9eb3d59640a1f4ac0873616f968"
  "lib/libavcodec.a"
  [
  "--disable-shared",
  "--enable-static",
  "--enable-gpl",
  "--enable-small",
  "--disable-pthreads",
  "--disable-programs",
  "--disable-doc",
  "--disable-avdevice",
  "--disable-swresample",
  "--disable-swscale",
  "--disable-postproc",
  "--disable-avfilter",
  "--disable-faan",
  "--disable-pixelutils",
  "--disable-network",
  "--disable-encoders",
  "--disable-hwaccels",
  "--disable-muxers",
  "--disable-protocols",
  "--disable-devices",
  "--disable-filters",
  "--disable-v4l2_m2m",
  "--disable-sdl2",
  "--disable-vulkan",
  "--disable-xlib",
  "--disable-parser=bmp",
  "--disable-parser=cavsvideo",
  "--disable-parser=dvbsub",
  "--disable-parser=dvdsub",
  "--disable-parser=dvd_nav",
  "--disable-parser=flac",
  "--disable-parser=g729",
  "--disable-parser=gsm",
  "--disable-parser=h261",
  "--disable-parser=h263",
  "--disable-parser=h264",
  "--disable-parser=hevc",
  "--disable-parser=jpeg2000",
  "--disable-parser=mjpeg",
  "--disable-parser=mlp",
  "--disable-parser=mpeg4video",
  "--disable-parser=mpegvideo",
  "--disable-parser=opus",
  "--disable-parser=qoi",
  "--disable-parser=rv30",
  "--disable-parser=rv40",
  "--disable-parser=vc1",
  "--disable-parser=vp3",
  "--disable-parser=vp8",
  "--disable-parser=vp9",
  "--disable-parser=png",
  "--disable-parser=pnm",
  "--disable-parser=webp",
  "--disable-parser=xma",
  "--disable-demuxer=aqtitle",
  "--disable-demuxer=ass",
  "--disable-demuxer=bethsoftvid",
  "--disable-demuxer=bink",
  "--disable-demuxer=cavsvideo",
  "--disable-demuxer=cdxl",
  "--disable-demuxer=dvbsub",
  "--disable-demuxer=dvbtxt",
  "--disable-demuxer=h261",
  "--disable-demuxer=h263",
  "--disable-demuxer=h264",
  "--disable-demuxer=ico",
  "--disable-demuxer=image2",
  "--disable-demuxer=image2pipe",
  "--disable-demuxer=image_bmp_pipe",
  "--disable-demuxer=image_cri_pipe",
  "--disable-demuxer=image_dds_pipe",
  "--disable-demuxer=image_dpx_pipe",
  "--disable-demuxer=image_exr_pipe",
  "--disable-demuxer=image_gem_pipe",
  "--disable-demuxer=image_gif_pipe",
  "--disable-demuxer=image_j2k_pipe",
  "--disable-demuxer=image_jpeg_pipe",
  "--disable-demuxer=image_jpegls_pipe",
  "--disable-demuxer=image_jpegxl_pipe",
  "--disable-demuxer=image_pam_pipe",
  "--disable-demuxer=image_pbm_pipe",
  "--disable-demuxer=image_pcx_pipe",
  "--disable-demuxer=image_pfm_pipe",
  "--disable-demuxer=image_pgm_pipe",
  "--disable-demuxer=image_pgmyuv_pipe",
  "--disable-demuxer=image_pgx_pipe",
  "--disable-demuxer=image_phm_pipe",
  "--disable-demuxer=image_photocd_pipe",
  "--disable-demuxer=image_pictor_pipe",
  "--disable-demuxer=image_png_pipe",
  "--disable-demuxer=image_ppm_pipe",
  "--disable-demuxer=image_psd_pipe",
  "--disable-demuxer=image_qdraw_pipe",
  "--disable-demuxer=image_qoi_pipe",
  "--disable-demuxer=image_sgi_pipe",
  "--disable-demuxer=image_sunrast_pipe",
  "--disable-demuxer=image_svg_pipe",
  "--disable-demuxer=image_tiff_pipe",
  "--disable-demuxer=image_vbn_pipe",
  "--disable-demuxer=image_webp_pipe",
  "--disable-demuxer=image_xbm_pipe",
  "--disable-demuxer=image_xpm_pipe",
  "--disable-demuxer=image_xwd_pipe",
  "--disable-demuxer=jacosub",
  "--disable-demuxer=lrc",
  "--disable-demuxer=microdvd",
  "--disable-demuxer=mjpeg",
  "--disable-demuxer=mjpeg_2000",
  "--disable-demuxer=mpegps",
  "--disable-demuxer=mpegvideo",
  "--disable-demuxer=mpl2",
  "--disable-demuxer=mpsub",
  "--disable-demuxer=pjs",
  "--disable-demuxer=rawvideo",
  "--disable-demuxer=realtext",
  "--disable-demuxer=sami",
  "--disable-demuxer=scc",
  "--disable-demuxer=srt",
  "--disable-demuxer=stl",
  "--disable-demuxer=subviewer",
  "--disable-demuxer=subviewer1",
  "--disable-demuxer=swf",
  "--disable-demuxer=tedcaptions",
  "--disable-demuxer=vobsub",
  "--disable-demuxer=vplayer",
  "--disable-demuxer=webm_dash_manifest",
  "--disable-demuxer=webvtt",
  "--disable-demuxer=yuv4mpegpipe",
  "--disable-decoder=flac",
  "--disable-decoder=opus",
  "--disable-decoder=vorbis",
  "--disable-decoder=atrac1",
  "--disable-decoder=atrac3",
  "--disable-decoder=atrac3al",
  "--disable-decoder=atrac3p",
  "--disable-decoder=atrac3pal",
  "--disable-decoder=binkaudio_dct",
  "--disable-decoder=binkaudio_rdft",
  "--disable-decoder=bmv_audio",
  "--disable-decoder=dsicinaudio",
  "--disable-decoder=dvaudio",
  "--disable-decoder=metasound",
  "--disable-decoder=paf_audio",
  "--disable-decoder=ra_144",
  "--disable-decoder=ra_288",
  "--disable-decoder=ralf",
  "--disable-decoder=qdm2",
  "--disable-decoder=qdmc",
  "--disable-decoder=acelp_kelvin",
  "--disable-decoder=agm",
  "--disable-decoder=aic",
  "--disable-decoder=alias_pix",
  "--disable-decoder=ansi",
  "--disable-decoder=apng",
  "--disable-decoder=arbc",
  "--disable-decoder=argo",
  "--disable-decoder=ass",
  "--disable-decoder=asv1",
  "--disable-decoder=asv2",
  "--disable-decoder=aura",
  "--disable-decoder=aura2",
  "--disable-decoder=avrn",
  "--disable-decoder=avrp",
  "--disable-decoder=avui",
  "--disable-decoder=ayuv",
  "--disable-decoder=bethsoftvid",
  "--disable-decoder=bfi",
  "--disable-decoder=bink",
  "--disable-decoder=bintext",
  "--disable-decoder=bitpacked",
  "--disable-decoder=bmp",
  "--disable-decoder=bmv_video",
  "--disable-decoder=brender_pix",
  "--disable-decoder=c93",
  "--disable-decoder=cavs",
  "--disable-decoder=ccaption",
  "--disable-decoder=cdgraphics",
  "--disable-decoder=cdtoons",
  "--disable-decoder=cdxl",
  "--disable-decoder=cfhd",
  "--disable-decoder=cinepak",
  "--disable-decoder=clearvideo",
  "--disable-decoder=cljr",
  "--disable-decoder=cllc",
  "--disable-decoder=cpia",
  "--disable-decoder=cscd",
  "--disable-decoder=cyuv",
  "--disable-decoder=dds",
  "--disable-decoder=dirac",
  "--disable-decoder=dnxhd",
  "--disable-decoder=dpx",
  "--disable-decoder=dsicinvideo",
  "--disable-decoder=dvbsub",
  "--disable-decoder=dvdsub",
  "--disable-decoder=dvvideo",
  "--disable-decoder=dxa",
  "--disable-decoder=dxtory",
  "--disable-decoder=dxv",
  "--disable-decoder=eacmv",
  "--disable-decoder=eamad",
  "--disable-decoder=eatgq",
  "--disable-decoder=eatgv",
  "--disable-decoder=eatqi",
  "--disable-decoder=eightbps",
  "--disable-decoder=escape124",
  "--disable-decoder=escape130",
  "--disable-decoder=exr",
  "--disable-decoder=ffv1",
  "--disable-decoder=ffvhuff",
  "--disable-decoder=ffwavesynth",
  "--disable-decoder=fic",
  "--disable-decoder=fits",
  "--disable-decoder=flashsv",
  "--disable-decoder=flashsv2",
  "--disable-decoder=flic",
  "--disable-decoder=flv",
  "--disable-decoder=fmvc",
  "--disable-decoder=fraps",
  "--disable-decoder=fourxm",
  "--disable-decoder=frwu",
  "--disable-decoder=g2m",
  "--disable-decoder=gdv",
  "--disable-decoder=gem",
  "--disable-decoder=gif",
  "--disable-decoder=h261",
  "--disable-decoder=h263",
  "--disable-decoder=h263i",
  "--disable-decoder=h263p",
  "--disable-decoder=h264",
  "--disable-decoder=hap",
  "--disable-decoder=hevc",
  "--disable-decoder=hnm4_video",
  "--disable-decoder=hq_hqa",
  "--disable-decoder=hqx",
  "--disable-decoder=huffyuv",
  "--disable-decoder=hymt",
  "--disable-decoder=idcin",
  "--disable-decoder=idf",
  "--disable-decoder=iff_ilbm",
  "--disable-decoder=imm4",
  "--disable-decoder=indeo2",
  "--disable-decoder=indeo3",
  "--disable-decoder=indeo4",
  "--disable-decoder=indeo5",
  "--disable-decoder=interplay_video",
  "--disable-decoder=ipu",
  "--disable-decoder=jacosub",
  "--disable-decoder=jpeg2000",
  "--disable-decoder=jpegls",
  "--disable-decoder=jv",
  "--disable-decoder=kgv1",
  "--disable-decoder=kmvc",
  "--disable-decoder=lagarith",
  "--disable-decoder=loco",
  "--disable-decoder=lscr",
  "--disable-decoder=m101",
  "--disable-decoder=magicyuv",
  "--disable-decoder=mdec",
  "--disable-decoder=microdvd",
  "--disable-decoder=mimic",
  "--disable-decoder=mjpeg",
  "--disable-decoder=mmvideo",
  "--disable-decoder=mpl2",
  "--disable-decoder=mobiclip",
  "--disable-decoder=motionpixels",
  "--disable-decoder=movtext",
  "--disable-decoder=mpeg1video",
  "--disable-decoder=mpeg2video",
  "--disable-decoder=mpeg4",
  "--disable-decoder=mpegvideo",
  "--disable-decoder=msa1",
  "--disable-decoder=mscc",
  "--disable-decoder=msmpeg4_crystalhd",
  "--disable-decoder=msmpeg4v1",
  "--disable-decoder=msmpeg4v2",
  "--disable-decoder=msmpeg4v3",
  "--disable-decoder=msp2",
  "--disable-decoder=msrle",
  "--disable-decoder=mss1",
  "--disable-decoder=msvideo1",
  "--disable-decoder=mszh",
  "--disable-decoder=mts2",
  "--disable-decoder=mv30",
  "--disable-decoder=mvc1",
  "--disable-decoder=mvc2",
  "--disable-decoder=mvdv",
  "--disable-decoder=mvha",
  "--disable-decoder=mwsc",
  "--disable-decoder=notchlc",
  "--disable-decoder=nuv",
  "--disable-decoder=on2avc",
  "--disable-decoder=paf_video",
  "--disable-decoder=pam",
  "--disable-decoder=pbm",
  "--disable-decoder=pcx",
  "--disable-decoder=pdv",
  "--disable-decoder=pfm",
  "--disable-decoder=pgm",
  "--disable-decoder=pgmyuv",
  "--disable-decoder=pgssub",
  "--disable-decoder=pgx",
  "--disable-decoder=phm",
  "--disable-decoder=photocd",
  "--disable-decoder=png",
  "--disable-decoder=pictor",
  "--disable-decoder=pixlet",
  "--disable-decoder=pjs",
  "--disable-decoder=ppm",
  "--disable-decoder=prores",
  "--disable-decoder=prosumer",
  "--disable-decoder=psd",
  "--disable-decoder=ptx",
  "--disable-decoder=qdraw",
  "--disable-decoder=qoi",
  "--disable-decoder=qpeg",
  "--disable-decoder=qtrle",
  "--disable-decoder=rawvideo",
  "--disable-decoder=r10k",
  "--disable-decoder=r210",
  "--disable-decoder=rasc",
  "--disable-decoder=realtext",
  "--disable-decoder=rl2",
  "--disable-decoder=rpza",
  "--disable-decoder=roq",
  "--disable-decoder=roq_dpcm",
  "--disable-decoder=rscc",
  "--disable-decoder=rv10",
  "--disable-decoder=rv20",
  "--disable-decoder=rv30",
  "--disable-decoder=rv40",
  "--disable-decoder=sami",
  "--disable-decoder=sanm",
  "--disable-decoder=scpr",
  "--disable-decoder=screenpresso",
  "--disable-decoder=sga",
  "--disable-decoder=sgi",
  "--disable-decoder=sgirle",
  "--disable-decoder=sheervideo",
  "--disable-decoder=simbiosis_imx",
  "--disable-decoder=smc",
  "--disable-decoder=snow",
  "--disable-decoder=speedhq",
  "--disable-decoder=srgc",
  "--disable-decoder=srt",
  "--disable-decoder=ssa",
  "--disable-decoder=stl",
  "--disable-decoder=subrip",
  "--disable-decoder=subviewer",
  "--disable-decoder=subviewer1",
  "--disable-decoder=sunrast",
  "--disable-decoder=svq1",
  "--disable-decoder=svq3",
  "--disable-decoder=targa",
  "--disable-decoder=targa_y216",
  "--disable-decoder=text",
  "--disable-decoder=tiff",
  "--disable-decoder=tiertexseqvideo",
  "--disable-decoder=tmv",
  "--disable-decoder=truemotion1",
  "--disable-decoder=truemotion2",
  "--disable-decoder=truemotion2rt",
  "--disable-decoder=tscc",
  "--disable-decoder=tscc2",
  "--disable-decoder=twinvq",
  "--disable-decoder=txd",
  "--disable-decoder=ulti",
  "--disable-decoder=utvideo",
  "--disable-decoder=v210",
  "--disable-decoder=v210x",
  "--disable-decoder=v308",
  "--disable-decoder=v408",
  "--disable-decoder=v410",
  "--disable-decoder=vb",
  "--disable-decoder=vble",
  "--disable-decoder=vbn",
  "--disable-decoder=vc1",
  "--disable-decoder=vcr1",
  "--disable-decoder=vmdvideo",
  "--disable-decoder=vmnc",
  "--disable-decoder=vp3",
  "--disable-decoder=vp5",
  "--disable-decoder=vp6",
  "--disable-decoder=vp7",
  "--disable-decoder=vp8",
  "--disable-decoder=vp9",
  "--disable-decoder=vplayer",
  "--disable-decoder=vqa",
  "--disable-decoder=webvtt",
  "--disable-decoder=wcmv",
  "--disable-decoder=wmv1",
  "--disable-decoder=wmv2",
  "--disable-decoder=wmv3",
  "--disable-decoder=wnv1",
  "--disable-decoder=wrapped_avframe",
  "--disable-decoder=xan_wc3",
  "--disable-decoder=xan_wc4",
  "--disable-decoder=xbin",
  "--disable-decoder=xbm",
  "--disable-decoder=xface",
  "--disable-decoder=xl",
  "--disable-decoder=xpm",
  "--disable-decoder=xsub",
  "--disable-decoder=xwd",
  "--disable-decoder=y41p",
  "--disable-decoder=ylc",
  "--disable-decoder=yop",
  "--disable-decoder=yuv4",
  "--disable-decoder=zero12v",
  "--disable-decoder=zerocodec",
  "--disable-decoder=zlib",
  "--disable-decoder=zmbv",
  "--disable-bsf=av1_frame_merge",
  "--disable-bsf=av1_frame_split",
  "--disable-bsf=av1_metadata",
  "--disable-bsf=dts2pts",
  "--disable-bsf=h264_metadata",
  "--disable-bsf=h264_mp4toannexb",
  "--disable-bsf=h264_redundant_pps",
  "--disable-bsf=hevc_metadata",
  "--disable-bsf=hevc_mp4toannexb",
  "--disable-bsf=mjpeg2jpeg",
  "--disable-bsf=opus_metadata",
  "--disable-bsf=pgs_frame_merge",
  "--disable-bsf=text2movsub",
  "--disable-bsf=vp9_metadata",
  "--disable-bsf=vp9_raw_reorder",
  "--disable-bsf=vp9_superframe",
  "--disable-bsf=vp9_superframe_split"
]

def libnfs : ProjectDesc := AutotoolsProject
  "https://github.com/sahlberg/libnfs/archive/libnfs-5.0.3.tar.gz"
  "d945cb4f4c8f82ee1f3640893a168810f794a28e1010bb007ec5add345e9df3e"
  "lib/libnfs.a"
  [ "--disable-shared", "--enable-static",
    "--disable-debug",
    "--disable-werror",
    "--disable-utils", "--disable-examples" ]
  none
  (some "libnfs-libnfs-5.0.3")
  true

/-- The descriptor registry: every module-level descriptor of `libs.py`, in
source order. -/
def registry : List ProjectDesc :=
  [libsamplerate, zlib, libmodplug, libopenmpt, wildmidi, gme, ffmpeg, libnfs]

set_option maxRecDepth 10000

/-- Hexadecimal digit in the lowercase alphabet used by `libs.py` digests:
code points 48-57 are the digits 0-9 and 97-102 are the letters a-f. -/
def hexDigit (c : Char) : Bool :=
  (Char.ofNat 48 ≤ c && c ≤ Char.ofNat 57) || (Char.ofNat 97 ≤ c && c ≤ Char.ofNat 102)

def isHexString (s : String) : Bool := s.data.all hexDigit

def listStartsWith : List Char → List Char → Bool
  | _, [] => true
  | [], _ :: _ => false
  | a :: as, b :: bs => a == b && listStartsWith as bs

def strStartsWith (s pre : String) : Bool := listStartsWith s.data pre.data

def strEndsWith (s suf : String) : Bool :=
  listStartsWith s.data.reverse suf.data.reverse

def strDropRightN (s : String) (n : Nat) : String :=
  String.mk (s.data.take (s.data.length - n))

def strDropN (s : String) (n : Nat) : String := String.mk (s.data.drop n)

/-- Code point 47 is the path separator. -/
def slash : Char := Char.ofNat 47

/-- Last path component of a URL or path: the characters after the final
separator. -/
def lastComponent (s : String) : String :=
  String.mk ((s.data.reverse.takeWhile (fun c => c != slash)).reverse)

/-- A relative path does not begin with the path separator. -/
def isRelativePath (s : String) : Bool := !(strStartsWith s "/")

/-- Two artifact paths are disjoint subpaths of the install prefix when they
are different and neither is a directory containing the other. -/
def pathsDisjoint (a b : String) : Bool :=
  a != b && !(strStartsWith b (a ++ "/")) && !(strStartsWith a (b ++ "/"))

def pairwiseDisjoint : List String → Bool
  | [] => true
  | a :: rest => rest.all (fun b => pathsDisjoint a b) && pairwiseDisjoint rest

/-- A static-library artifact path of the form `lib/<name>.a`: directly under
the prefix's `lib` directory with a nonempty name and no further separator. -/
def isStaticLibPath (s : String) : Bool :=
  strStartsWith s "lib/" && strEndsWith s ".a" &&
    (strDropRightN (strDropN s 4) 2).data ≠ [] &&
    !((strDropN s 4).data.contains slash)

/-- Modelled from the spec (the engine's `Project` base class is not among
the visible sources): the default extracted root directory name is derived
from the archive filename — the last component of the first source URL — by
stripping the archive extension; the descriptor's `base` override, when
present, replaces that derived name. -/
def archiveFilename (p : ProjectDesc) : String := lastComponent (p.urls.headD "")

def archiveStem (name : String) : String :=
  if strEndsWith name ".tar.xz" then strDropRightN name 7
  else if strEndsWith name ".tar.gz" then strDropRightN name 7
  else if strEndsWith name ".tar.bz2" then strDropRightN name 8
  else if strEndsWith name ".zip" then strDropRightN name 4
  else name

def extractedRootName (p : ProjectDesc) : String :=
  match p.base with
  | some b => b
  | none => archiveStem (archiveFilename p)

/-- Modelled from the spec: a patch file identifier names one patch file (a
diff applied to the source tree), recognisable by a patch-file extension; a
directory holding patches is not itself a patch file identifier. -/
def namesPatchFile (s : String) : Bool :=
  strEndsWith s ".patch" || strEndsWith s ".diff"

inductive BuildStep where
  | bootstrap
  | configure
  | compile
  | install
  | verifyArtifact
deriving DecidableEq, Repr

/-- Modelled from the spec (adapter code is not among the visible sources):
the uniform adapter sequence — an optional bootstrap/regenerate step first,
run exactly when the descriptor requests it, then configure, compile,
install and artifact verification. -/
def buildSteps (p : ProjectDesc) : List BuildStep :=
  (if p.autoreconf then [BuildStep.bootstrap] else []) ++
    [BuildStep.configure, BuildStep.compile, BuildStep.install,
      BuildStep.verifyArtifact]

/-- Modelled from the spec (adapter code is not among the visible sources):
the configure step's command line is the configure program plus whatever
toolchain-derived flags the adapter contributes, with the descriptor's
opaque argument list appended verbatim and in declared order — never
reordered, deduplicated, inspected or truncated. -/
def configureInvocation (program : String) (toolchainFlags : List String)
    (p : ProjectDesc) : List String :=
  program :: (toolchainFlags ++ p.configureArgs)

inductive FetchOutcome where
  | fetched (location : String)
  | networkFailure
  | integrityFailure (location : String)
deriving DecidableEq, Repr

/-- Modelled from the spec (fetcher code is not among the visible sources):
`fetch` tries the locations in declared order; a transport failure on one
location advances to the next without failing the operation; exhausting all
locations is a network error; after a successful transfer the digest of the
received bytes is recomputed and compared with the declared digest, and a
mismatch is a fatal integrity error.  `reachable l` says whether a transfer
from location `l` succeeds, and `contentDigest l` is the digest of the bytes
that location delivers. -/
def fetch (reachable : String → Bool) (contentDigest : String → String)
    (digest : String) : List String → FetchOutcome
  | [] => FetchOutcome.networkFailure
  | l :: rest =>
    if reachable l then
      if contentDigest l == digest then FetchOutcome.fetched l
      else FetchOutcome.integrityFailure l
    else fetch reachable contentDigest digest rest

/-- Claim C1: every digest in the registry is a literal lowercase-hex string;
the libsamplerate descriptor's digest has 32 hex characters (MD5 length)
while every other descriptor's digest has 64 (SHA-256 length), so the
registry exercises exactly two distinct digest lengths. -/
theorem digest_lengths_identify_algorithm :
    (registry.all fun p => isHexString p.digest) = true ∧
    libsamplerate ∈ registry ∧
    libsamplerate.digest.length = 32 ∧
    (registry.all fun p => decide (p = libsamplerate) || p.digest.length == 64) = true ∧
    (registry.filter fun p => p.digest.length == 32).length = 1 :=
  ⟨by decide, by decide, by decide, by decide, by decide⟩

/-- Claim C2: the declared artifact paths of the registry's descriptors are
pairwise disjoint subpaths of the install prefix (distinct, and no path is a
directory containing another), and every declared artifact path is relative
(it does not begin with a path separator). -/
theorem artifact_paths_disjoint_and_relative :
    pairwiseDisjoint (registry.map fun p => p.installed) = true ∧
    (registry.all fun p => isRelativePath p.installed) = true :=
  ⟨by decide, by decide⟩

/-- Claim C3: every registry descriptor carries exactly one of the four
adapter kinds, all four kinds occur, and the feature-flag-heavy kind is used
exactly by the ffmpeg descriptor while the bespoke kind is used exactly by
the zlib descriptor. -/
theorem four_adapter_kinds_all_occur :
    (∀ p ∈ registry,
      p.kind = AdapterKind.cmake ∨ p.kind = AdapterKind.autotools ∨
        p.kind = AdapterKind.ffmpegBuild ∨ p.kind = AdapterKind.zlibBuild) ∧
    (∃ p ∈ registry, p.kind = AdapterKind.cmake) ∧
    (∃ p ∈ registry, p.kind = AdapterKind.autotools) ∧
    (registry.filter fun p => p.kind == AdapterKind.ffmpegBuild) = [ffmpeg] ∧
    (registry.filter fun p => p.kind == AdapterKind.zlibBuild) = [zlib] := by
  refine ⟨by decide, by decide, by decide, rfl, rfl⟩

/-- Claim C4: the zlib descriptor declares exactly two mirror URLs in order
and a SHA-256-length hex digest; when the first mirror is unreachable and
the second delivers content matching the declared digest, the modelled fetch
succeeds via the second mirror. -/
theorem zlib_mirror_fallback (reachable : String → Bool)
    (contentDigest : String → String)
    (h1 : reachable "http://zlib.net/zlib-1.3.1.tar.xz" = false)
    (h2 : reachable
      "https://github.com/madler/zlib/releases/download/v1.3.1/zlib-1.3.1.tar.xz" = true)
    (h3 : contentDigest
      "https://github.com/madler/zlib/releases/download/v1.3.1/zlib-1.3.1.tar.xz" =
      zlib.digest) :
    zlib.urls.length = 2 ∧ zlib.digest.length = 64 ∧ isHexString zlib.digest = true ∧
    fetch reachable contentDigest zlib.digest zlib.urls =
      FetchOutcome.fetched
        "https://github.com/madler/zlib/releases/download/v1.3.1/zlib-1.3.1.tar.xz" := by
  refine ⟨by decide, by decide, by decide, ?_⟩
  have hu : zlib.urls =
      ["http://zlib.net/zlib-1.3.1.tar.xz",
       "https://github.com/madler/zlib/releases/download/v1.3.1/zlib-1.3.1.tar.xz"] := rfl
  rw [hu]
  simp [fetch, h1, h2, h3]

theorem zlib_mirror_fallback_witness :
    zlib.urls.length = 2 ∧ zlib.digest.length = 64 ∧ isHexString zlib.digest = true ∧
    fetch
      (fun l => l ==
        "https://github.com/madler/zlib/releases/download/v1.3.1/zlib-1.3.1.tar.xz")
      (fun _ => "38ef96b8dfe510d42707d9c781877914792541133e1870841463bfa73f883e32")
      zlib.digest zlib.urls =
      FetchOutcome.fetched
        "https://github.com/madler/zlib/releases/download/v1.3.1/zlib-1.3.1.tar.xz" :=
  zlib_mirror_fallback _ _ (by decide) (by decide) (by decide)

/-- Claim C5, counterexample: it is not the case that every declared
patch-set reference in the registry is a list of patch file identifiers —
libmodplug's reference is a single directory subpath, not a patch file. -/
theorem patch_reference_not_explicit_file_list :
    ¬ (∀ p ∈ registry, Option.all namesPatchFile p.patches = true) := by decide

/-- Claim C5 (amended): exactly one registry descriptor declares a patch
reference — libmodplug — and that reference is a single filesystem directory
path, not an explicit ordered list of patch files, so application order is
determined by enumerating that directory. -/
theorem patch_reference_is_directory :
    (registry.filter fun p => p.patches.isSome) = [libmodplug] ∧
    libmodplug.patches = some "src/lib/modplug/patches" ∧
    namesPatchFile "src/lib/modplug/patches" = false := by
  refine ⟨rfl, rfl, by decide⟩

/-- Claim C6, counterexample: no registry descriptor declares both a patch
set and a root-directory override. -/
theorem no_patch_set_with_root_override :
    ¬ ∃ p ∈ registry, p.patches.isSome = true ∧ p.base.isSome = true := by decide

/-- Claim C6 (amended): patch sets and root-directory overrides occur on
disjoint descriptors — libmodplug alone has a patch reference and no
override, libopenmpt and libnfs alone have overrides and no patches — and
for the overriding descriptors extraction uses the override name. -/
theorem patch_sets_and_overrides_disjoint :
    (registry.all fun p => !(p.patches.isSome && p.base.isSome)) = true ∧
    (registry.filter fun p => p.base.isSome) = [libopenmpt, libnfs] ∧
    libmodplug.base = none ∧ libopenmpt.patches = none ∧ libnfs.patches = none ∧
    extractedRootName libopenmpt = "libopenmpt-0.7.3+release.autotools" ∧
    extractedRootName libnfs = "libnfs-libnfs-5.0.3" := by
  refine ⟨by decide, rfl, rfl, rfl, rfl, rfl, rfl⟩

/-- Claim C7: every root-override names a directory different from the name
derived from the archive filename — libopenmpt's override names version
0.7.3 while its archive stem names 0.7.4, libnfs's override is
"libnfs-libnfs-5.0.3" against archive "libnfs-5.0.3.tar.gz" — and every
descriptor without an override uses the archive filename's stem. -/
theorem root_override_differs_from_archive_stem :
    (registry.all fun p =>
      match p.base with
      | some b => b != archiveStem (archiveFilename p)
      | none => extractedRootName p == archiveStem (archiveFilename p)) = true ∧
    libopenmpt.base = some "libopenmpt-0.7.3+release.autotools" ∧
    archiveStem (archiveFilename libopenmpt) = "libopenmpt-0.7.4+release.autotools" ∧
    libnfs.base = some "libnfs-libnfs-5.0.3" ∧
    archiveFilename libnfs = "libnfs-5.0.3.tar.gz" ∧
    archiveStem (archiveFilename libnfs) = "libnfs-5.0.3" := by
  refine ⟨by decide, rfl, by decide, rfl, by decide, by decide⟩

/-- Claim C8: the reconfigure-from-scratch flag defaults to absent; exactly
one descriptor — libnfs, an Autotools-family descriptor — requests it, and
the modelled build sequence contains the bootstrap step exactly for a
descriptor that requests the flag. -/
theorem bootstrap_only_when_requested :
    libnfs.autoreconf = true ∧ libnfs.kind = AdapterKind.autotools ∧
    (registry.filter fun p => p.autoreconf) = [libnfs] ∧
    (∀ p ∈ registry, (BuildStep.bootstrap ∈ buildSteps p ↔ p.autoreconf = true)) := by
  refine ⟨rfl, rfl, rfl, by decide⟩

/-- Claim C9: the ffmpeg descriptor's configuration-argument list holds 428
opaque strings, and every configure invocation built from it ends with
exactly that list — every argument present, in declared order, none dropped,
reordered, deduplicated or truncated. -/
theorem ffmpeg_args_passed_verbatim :
    ffmpeg.configureArgs.length = 428 ∧
    ∀ program toolchainFlags,
      (configureInvocation program toolchainFlags ffmpeg).drop
          (1 + toolchainFlags.length) = ffmpeg.configureArgs := by
  refine ⟨by decide, ?_⟩
  intro program tf
  show (program :: (tf ++ ffmpeg.configureArgs)).drop (1 + tf.length) =
    ffmpeg.configureArgs
  rw [Nat.add_comm, List.drop_succ_cons, List.drop_left]

/-- Claim C10: every CMake-style descriptor's argument list contains
"-DBUILD_SHARED_LIBS=OFF"; every Autotools-family descriptor's list (the
ffmpeg descriptor's included) contains both "--disable-shared" and
"--enable-static"; every declared artifact path has the static-library form
lib/<name>.a; and the bespoke zlib descriptor is the only one constructed
without any argument list. -/
theorem static_only_output :
    (registry.all fun p =>
      p.kind != AdapterKind.cmake ||
        p.configureArgs.contains "-DBUILD_SHARED_LIBS=OFF") = true ∧
    (registry.all fun p =>
      !(p.kind == AdapterKind.autotools || p.kind == AdapterKind.ffmpegBuild) ||
        (p.configureArgs.contains "--disable-shared" &&
          p.configureArgs.contains "--enable-static")) = true ∧
    (registry.all fun p => isStaticLibPath p.installed) = true ∧
    zlib.configureArgs = [] ∧
    (registry.filter fun p => p.configureArgs.isEmpty) = [zlib] := by
  refine ⟨by decide, by decide, by decide, rfl, rfl⟩
